import Mathlib

set_option maxRecDepth 8000

/- Verification development for the Time-Management-Agent calendar CLI.
   Shallow embedding of calendar_cli/profile.py, calendar_cli/system_prompt.py
   and the ask / quick-create commands of calendar_cli/cli.py. -/

/-- Python str.lower, restricted to the ASCII case mapping (the inputs the
CLI compares against are plain ASCII exit tokens). -/
def pyLower (s : String) : String := ⟨s.data.map Char.toLower⟩

/-- Python str.upper, restricted to the ASCII case mapping. -/
def pyUpper (s : String) : String := ⟨s.data.map Char.toUpper⟩

/-- Python str.strip with no argument: drop leading and trailing whitespace
characters. -/
def pyStrip (s : String) : String :=
  ⟨((s.data.dropWhile Char.isWhitespace).reverse.dropWhile Char.isWhitespace).reverse⟩

/-- Python truthiness of an `Optional[str]`: `None` and the empty string are falsy. -/
def truthyS : Option String → Bool
  | none => false
  | some s => s != ""

/-- Python truthiness of an `Optional[list]` (or dict, modelled as an ordered
association list): `None` and the empty collection are falsy. -/
def truthyL {α : Type} : Option (List α) → Bool
  | none => false
  | some l => !l.isEmpty

/-- The pydantic model `UserProfile` from profile.py.  The `working_hours`
dict is modelled as an insertion-ordered association list. -/
structure UserProfile where
  timezone : Option String
  workdays : Option (List String)
  working_hours : Option (List (String × String))
  lunch : Option String
  no_meetings : Option (List String)
  preferred_deep_work : Option (List String)
  avoid_times : Option (List String)
  notes : Option String
deriving DecidableEq, Repr

/-- The `lines` list built by `summarize_profile_for_system` (profile.py
lines 88-107): a header followed by one bullet per truthy field, appended in
the source's fixed order.  The `notes` field is never consulted. -/
def summarizeLines (profile : UserProfile) : List String :=
  ["Kullanıcı Profili:"]
  ++ (if truthyS profile.timezone then
        ["- Zaman dilimi: " ++ profile.timezone.getD ""] else [])
  ++ (if truthyL profile.workdays then
        ["- Çalışma günleri: " ++ String.intercalate ", " (profile.workdays.getD [])] else [])
  ++ (if truthyL profile.working_hours then
        ["- Çalışma saatleri: " ++ String.intercalate "; "
          ((profile.working_hours.getD []).map fun dw => dw.1 ++ ": " ++ dw.2)] else [])
  ++ (if truthyS profile.lunch then
        ["- Öğle arası: " ++ profile.lunch.getD ""] else [])
  ++ (if truthyL profile.no_meetings then
        ["- Toplantı kaçınma: " ++ String.intercalate "; " (profile.no_meetings.getD [])] else [])
  ++ (if truthyL profile.preferred_deep_work then
        ["- Derin odak tercihleri: " ++ String.intercalate "; " (profile.preferred_deep_work.getD [])] else [])
  ++ (if truthyL profile.avoid_times then
        ["- Kaçınılacak saatler: " ++ String.intercalate "; " (profile.avoid_times.getD [])] else [])

/-- `summarize_profile_for_system` from profile.py: the lines joined with
newlines. -/
def summarize_profile_for_system (profile : UserProfile) : String :=
  String.intercalate "\n" (summarizeLines profile)

/-- A summary line is a bullet when it starts with the two characters `- `. -/
def isBullet (l : String) : Bool := l.toList.take 2 == ['-', ' ']

/-- The fixed set of exit tokens of the ask conversation loop (cli.py line 162). -/
def exitTokens : List String := ["exit", "quit", "q"]

/-- Outcome of one pass through the tail of the ask loop body (cli.py lines
161-166): the session breaks out of the `while True` loop, or `continue`s
with the message list unchanged, or appends one user message.  In BOTH
non-terminating cases control re-enters the top of the loop, where
`agent.stream` (cli.py line 148) re-submits the carried message list to the
runtime — `continued` does not suppress that submission, it only leaves the
history unchanged. -/
inductive StepResult where
  | terminated : StepResult
  | continued : List (String × String) → StepResult
  | appended : List (String × String) → StepResult
deriving DecidableEq, Repr

/-- The seeding of the conversation message list (cli.py line 145):
`messages = [("system", system_instructions), ("user", prompt)]`. -/
def initMessages (systemInstructions firstPrompt : String) : List (String × String) :=
  [("system", systemInstructions), ("user", firstPrompt)]

/-- One pass through the user-input tail of the ask loop (cli.py lines
161-166): strip the raw line; break when its lowercase form is an exit token;
`continue` (appending nothing, but re-entering the loop top) when it is
empty; otherwise append it as one user-role message. -/
def sessionStep (messages : List (String × String)) (raw : String) : StepResult :=
  let user_input := pyStrip raw
  if pyLower user_input ∈ exitTokens then .terminated
  else if user_input = "" then .continued messages
  else .appended (messages ++ [("user", user_input)])

/-- The whole `while True` loop of the ask command (cli.py lines 146-166),
driven by the finite script of raw user inputs, returning the list of message
histories submitted to `agent.stream` (cli.py line 148), in order.  Each
iteration FIRST submits the current history to the runtime, takes the
runtime's final event as the new history (`none` models an empty event
stream, leaving the history as it was), and only then reads user input; the
recursion stops when the script is exhausted or an exit token breaks the
loop, in both cases after this iteration's submission. -/
def askLoop (runtime : List (String × String) → Option (List (String × String))) :
    List (String × String) → List String → List (List (String × String))
  | messages, [] => [messages]
  | messages, raw :: rest =>
    let after := (runtime messages).getD messages
    match sessionStep after raw with
    | .terminated => [messages]
    | .continued m2 => messages :: askLoop runtime m2 rest
    | .appended m2 => messages :: askLoop runtime m2 rest

/-- C1: the ask conversation loop terminates if and only if the raw input,
trimmed of surrounding whitespace and case-folded, is one of `exit`, `quit`,
`q`; any other input (the empty string included) does not terminate the
session. -/
theorem c1_session_terminates_iff_exit_token
    (messages : List (String × String)) (raw : String) :
    sessionStep messages raw = .terminated ↔ pyLower (pyStrip raw) ∈ exitTokens := by
  unfold sessionStep
  by_cases h : pyLower (pyStrip raw) ∈ exitTokens
  · simp [h]
  · by_cases he : pyStrip raw = "" <;> simp [h, he]

/-- Helper: a line built as the fixed bullet prefix `- Zaman dilimi: `
followed by any suffix is recognised as a bullet line. -/
theorem isBullet_tz_line (t : String) : isBullet ("- Zaman dilimi: " ++ t) = true := by
  obtain ⟨l⟩ := t
  rfl

/-- C2: a profile in which only `timezone` is set summarises to the header
plus exactly one bullet line (whatever the ignored `notes` field holds), and a
fully populated profile summarises to all seven bullet categories (notes
excluded) in the source's fixed order: timezone, workdays joined by comma,
per-day hour windows joined by semicolon, lunch window, meeting-avoidance
windows, preferred focus windows, general avoid windows. -/
theorem c2_summary_bullets
    (tz lunch notes : String) (wd nm dw av : List String)
    (wh : List (String × String)) (onlyNotes : Option String)
    (htz : tz ≠ "") (hwd : wd ≠ []) (hwh : wh ≠ []) (hlu : lunch ≠ "")
    (hnm : nm ≠ []) (hdw : dw ≠ []) (hav : av ≠ []) :
    summarizeLines ⟨some tz, none, none, none, none, none, none, onlyNotes⟩
      = ["Kullanıcı Profili:", "- Zaman dilimi: " ++ tz] ∧
    ((summarizeLines ⟨some tz, none, none, none, none, none, none, onlyNotes⟩).filter
        isBullet).length = 1 ∧
    summarizeLines ⟨some tz, some wd, some wh, some lunch, some nm, some dw, some av, some notes⟩
      = ["Kullanıcı Profili:",
         "- Zaman dilimi: " ++ tz,
         "- Çalışma günleri: " ++ String.intercalate ", " wd,
         "- Çalışma saatleri: " ++ String.intercalate "; "
            (wh.map fun dayWindow => dayWindow.1 ++ ": " ++ dayWindow.2),
         "- Öğle arası: " ++ lunch,
         "- Toplantı kaçınma: " ++ String.intercalate "; " nm,
         "- Derin odak tercihleri: " ++ String.intercalate "; " dw,
         "- Kaçınılacak saatler: " ++ String.intercalate "; " av] := by
  have honly : summarizeLines ⟨some tz, none, none, none, none, none, none, onlyNotes⟩
      = ["Kullanıcı Profili:", "- Zaman dilimi: " ++ tz] := by
    simp [summarizeLines, truthyS, truthyL, htz]
  refine ⟨honly, ?_, ?_⟩
  · rw [honly]
    simp [List.filter, isBullet_tz_line]
    rfl
  · simp [summarizeLines, truthyS, truthyL, htz, hwd, hwh, hlu, hnm, hdw, hav]

/-- C2 witness: the two scenarios of `c2_summary_bullets` evaluated on the
template profile values from profile.py. -/
theorem c2_summary_bullets_witness :
    summarizeLines ⟨some "Europe/Istanbul", none, none, none, none, none, none, some "x"⟩
      = ["Kullanıcı Profili:", "- Zaman dilimi: Europe/Istanbul"] ∧
    ((summarizeLines ⟨some "Europe/Istanbul", none, none, none, none, none, none, some "x"⟩).filter
        isBullet).length = 1 ∧
    summarizeLines ⟨some "Europe/Istanbul", some ["mon", "tue"], some [("mon", "09:00-18:00")],
        some "12:30-13:30", some ["Fri 14:00-16:00"], some ["09:00-11:00"],
        some ["18:00-21:00"], some "notlar"⟩
      = ["Kullanıcı Profili:",
         "- Zaman dilimi: Europe/Istanbul",
         "- Çalışma günleri: mon, tue",
         "- Çalışma saatleri: mon: 09:00-18:00",
         "- Öğle arası: 12:30-13:30",
         "- Toplantı kaçınma: Fri 14:00-16:00",
         "- Derin odak tercihleri: 09:00-11:00",
         "- Kaçınılacak saatler: 18:00-21:00"] := by
  have h := c2_summary_bullets "Europe/Istanbul" "12:30-13:30" "notlar"
    ["mon", "tue"] ["Fri 14:00-16:00"] ["09:00-11:00"] ["18:00-21:00"]
    [("mon", "09:00-18:00")] (some "x")
    (by decide) (by decide) (by decide) (by decide) (by decide) (by decide) (by decide)
  refine ⟨h.1, h.2.1, ?_⟩
  rw [h.2.2]
  rfl

/-- C4 counterexample: empty input does NOT suppress the runtime submission.
Inserting one empty input line before `exit` makes the loop perform a second
`agent.stream` submission — of the history unchanged by this layer (only
extended by the runtime's own assistant message) — where the claimed
behaviour would leave the submission of `[seed]` alone. -/
theorem c4_counterexample :
    askLoop (fun ms => some (ms ++ [("assistant", "yanit")]))
        [("system", "s"), ("user", "u")] ["", "exit"]
      = [[("system", "s"), ("user", "u")],
         [("system", "s"), ("user", "u"), ("assistant", "yanit")]] ∧
    askLoop (fun ms => some (ms ++ [("assistant", "yanit")]))
        [("system", "s"), ("user", "u")] ["exit"]
      = [[("system", "s"), ("user", "u")]] := by
  refine ⟨?_, ?_⟩ <;> decide

/-- C4 (amended): the conversation message list is seeded as exactly the two
messages `[system_instruction, first_user_message]`; a whitespace-only input
leaves the list untouched; a non-empty non-exit input appends exactly one
user-role message at the end, so messages already in the list are never
reordered or removed by this layer; BUT an empty input does trigger a runtime
submission — the `continue` re-enters the loop top, which re-submits the
history (unchanged by this layer) to `agent.stream`. -/
theorem c4_message_list_append_only
    (sys first : String) (messages : List (String × String)) (raw : String)
    (runtime : List (String × String) → Option (List (String × String)))
    (rest : List String) :
    initMessages sys first = [("system", sys), ("user", first)] ∧
    (pyStrip raw = "" → sessionStep messages raw = .continued messages) ∧
    (pyStrip raw ≠ "" → pyLower (pyStrip raw) ∉ exitTokens →
      sessionStep messages raw = .appended (messages ++ [("user", pyStrip raw)])) ∧
    (pyStrip raw = "" →
      askLoop runtime messages (raw :: rest)
        = messages :: askLoop runtime ((runtime messages).getD messages) rest) := by
  refine ⟨rfl, ?_, ?_, ?_⟩
  · intro he
    have hmem : pyLower (pyStrip raw) ∉ exitTokens := by rw [he]; decide
    unfold sessionStep
    rw [if_neg hmem, if_pos he]
  · intro he hm
    unfold sessionStep
    rw [if_neg hm, if_neg he]
  · intro he
    have hmem : pyLower (pyStrip raw) ∉ exitTokens := by rw [he]; decide
    have hstep : sessionStep ((runtime messages).getD messages) raw
        = .continued ((runtime messages).getD messages) := by
      unfold sessionStep
      rw [if_neg hmem, if_pos he]
    simp only [askLoop]
    rw [hstep]

/-- C4 witness: seeding, the continue and append behaviours, and the
re-submission after an empty input, all from `c4_message_list_append_only`
at concrete inputs. -/
theorem c4_message_list_append_only_witness :
    initMessages "s" "hi" = [("system", "s"), ("user", "hi")] ∧
    sessionStep [("system", "s")] "  " = .continued [("system", "s")] ∧
    sessionStep [("system", "s")] " ok " = .appended [("system", "s"), ("user", "ok")] ∧
    askLoop (fun ms => some (ms ++ [("assistant", "a")])) [("system", "s")] ["", "exit"]
      = [("system", "s")] :: askLoop (fun ms => some (ms ++ [("assistant", "a")]))
          [("system", "s"), ("assistant", "a")] ["exit"] :=
  ⟨(c4_message_list_append_only "s" "hi" [] "x" (fun _ => none) []).1,
   (c4_message_list_append_only "s" "hi" [("system", "s")] "  " (fun _ => none) []).2.1
     (by decide),
   (c4_message_list_append_only "s" "hi" [("system", "s")] " ok " (fun _ => none) []).2.2.1
     (by decide) (by decide),
   (c4_message_list_append_only "s" "hi" [("system", "s")] ""
     (fun ms => some (ms ++ [("assistant", "a")])) ["exit"]).2.2.2 (by decide)⟩

/-- C7: two profiles that differ only in their free-form `notes` field get
identical summaries from `summarize_profile_for_system`. -/
theorem c7_notes_never_influence_summary
    (p : UserProfile) (n1 n2 : Option String) :
    summarize_profile_for_system { p with notes := n1 }
      = summarize_profile_for_system { p with notes := n2 } := by
  cases p
  rfl

/-- State of the optional on-disk document a loader reads: the file is
absent, reading it raises, or reading yields its text. -/
inductive ReadOutcome (α : Type) where
  | missing : ReadOutcome α
  | errored : ReadOutcome α
  | got : α → ReadOutcome α
deriving DecidableEq, Repr

/-- `load_user_profile` from profile.py lines 75-85: `None` when the file is
absent; the body wraps read + parse + validation in a try/except returning
`None` on any failure.  `validate` abstracts the external
`yaml.safe_load` + `UserProfile.model_validate` pipeline. -/
def load_user_profile (file : ReadOutcome String)
    (validate : String → Except String UserProfile) : Option UserProfile :=
  match file with
  | .missing => none
  | .errored => none
  | .got content =>
    match validate content with
    | .error _ => none
    | .ok p => some p

/-- `load_system_prompt` from system_prompt.py lines 42-50: `None` when the
file is absent or reading raises; otherwise the file text verbatim. -/
def load_system_prompt (file : ReadOutcome String) : Option String :=
  match file with
  | .missing => none
  | .errored => none
  | .got content => some content

/-- The `profile_note` variable of the ask command (cli.py lines 111-113):
empty unless a profile was loaded, else a blank line plus the summary. -/
def profileNote : Option UserProfile → String
  | none => ""
  | some p => "\n\n" ++ summarize_profile_for_system p

/-- The override merge at cli.py lines 139-141: when `external_prompt` is
truthy (present and non-empty) the composed instruction is
`external_prompt.strip() + "\n\n" + generated`, otherwise the generated text
alone. -/
def composeSystemInstructions (generated : String) (external_prompt : Option String) : String :=
  match external_prompt with
  | some ep => if ep = "" then generated else pyStrip ep ++ "\n\n" ++ generated
  | none => generated

/-- The fixed role/policy text of the ask command (cli.py lines 117-134),
verbatim (ASCII apostrophes written as the escape `\x27`). -/
def roleText : String :=
  "Rol: Sen, insan biyolojisi, sirkadiyen ritim, nörobilim, ergonomi ve üretkenlik konularında uzman "
  ++ "bir Zaman Yönetimi Danışmanı ve takvim ajanısın. Amaç: Kullanıcının talebini en kısa ve net şekilde "
  ++ "yanıtlamak ve gerektiğinde takvim üzerinde güvenli işlemler yapmak (oluştur/ara/güncelle/taşı/sil). "
  ++ "Çakışmaları ve kısıtları kontrol et; izinsiz/yıkıcı değişiklik yapma.\n\n"
  ++ "Varsayılan iletişim tarzı: Soruyu doğrudan yanıtla; gereksiz tavsiye ve uzun açıklamalardan kaçın. "
  ++ "Yanıt sonunda yalnızca şu soruyu sor: \x27Öneri ve kısa bilimsel açıklama eklememi ister misiniz? (E/H)\x27. "
  ++ "Kullanıcı \x27E\x27 derse kısaca öneriler + kısa gerekçe ekle; \x27H\x27 derse ekleme.\n\n"
  ++ "Planlama ilkeleri (iç kurallar):\n"
  ++ "- Biyolojik saat: 09:00–11:00 ve 16:00–18:00 zihinsel zirve; ~14:00 ve geç saatlerde odak azalır.\n"
  ++ "- Zaman yönetiminin 3 boyutu: Planlama (önemli işleri zirve saatlere koy), Tutum (zaman sınırlı; erteleme), "
  ++ "Tuzaklar (gereksiz toplantı/habersiz ziyaret/sosyal medya; gerektiğinde \x27hayır\x27 de).\n"
  ++ "- Mola ve sağlık: 20-20-20 göz kuralı; 60–90 dk’da bir 5–10 dk aktif mola; postür değişikliği/esneme.\n"
  ++ "- Süreç: Günlük zaman kütüğü ile analiz → önem–aciliyet matrisi → uygula → gün sonunda sapmaları değerlendir.\n"
  ++ "- Görev yerleşimi: Yüksek odak işler zirvede; rutin işler düşük enerji saatlerinde; yaratıcı işler sabah erken "
  ++ "veya akşam sakin saatlerde (kişisel ritme bağlı).\n"
  ++ "- Boş zaman verilirse uygun görevlerle doldur; verilmezse alternatif zaman pencereleri sun.\n\n"
  ++ "Çıktı davranışı: Kullanıcı açıkça \x27günlük plan\x27 isterse \x27Saat Bazlı Görev Planı\x27nı üret. "
  ++ "Mola/Egzersiz, Göz/Postür, Zorluk Sırası, Bilimsel Açıklama bölümlerini yalnızca kullanıcı \x27E\x27 yanıtını verdikten sonra ekle.\n\n"

/-- The generated system instruction of the ask command (cli.py lines
116-138): role/policy text, the two pre-rendered strftime timestamps, then
the optional profile note. -/
def baseInstructions (nowLocal nowUtc : String) (profile : Option UserProfile) : String :=
  roleText
  ++ "Şu anki tarih-saat (yerel): " ++ nowLocal ++ "\n"
  ++ "Şu anki tarih-saat (UTC):   " ++ nowUtc
  ++ profileNote profile

/-- Full system-instruction composition of the ask command (cli.py lines
111-141) over pre-resolved inputs: rendered local timestamp, rendered UTC
timestamp, optional profile, optional override text. -/
def compose (nowLocal nowUtc : String) (profile : Option UserProfile)
    (override : Option String) : String :=
  composeSystemInstructions (baseInstructions nowLocal nowUtc profile) override

/-- C5 counterexample: an override that is present but empty (an existing,
empty override file makes `load_system_prompt` return the empty string) is
NOT prepended with a blank-line separator as the claim states; the code
falls back to the generated text alone. -/
theorem c5_counterexample :
    load_system_prompt (.got "") = some "" ∧
    composeSystemInstructions "Rol" (some "") = "Rol" ∧
    "Rol" ≠ pyStrip "" ++ "\n\n" ++ "Rol" := by
  refine ⟨rfl, rfl, ?_⟩
  decide

/-- C5 (amended): whenever the override is present AND non-empty, the
composed instruction is the override trimmed, a blank-line separator, then
the generated text unchanged; when the override is absent — or present but
empty — the generated text is used alone. -/
theorem c5_override_prepended
    (generated ov : String) :
    (ov ≠ "" → composeSystemInstructions generated (some ov)
        = pyStrip ov ++ "\n\n" ++ generated) ∧
    composeSystemInstructions generated none = generated ∧
    composeSystemInstructions generated (some "") = generated := by
  refine ⟨fun h => ?_, rfl, rfl⟩
  simp [composeSystemInstructions, h]

/-- C5 witness: `c5_override_prepended` applied to a concrete non-empty
override. -/
theorem c5_override_prepended_witness :
    composeSystemInstructions "govde" (some " ek kurallar ")
      = "ek kurallar" ++ "\n\n" ++ "govde" :=
  (c5_override_prepended "govde" " ek kurallar ").1 (by decide)

/-- C6: neither optional-document loader can raise to its caller — both are
total functions into `Option` — and every failure state (file absent,
unreadable, or invalid content) yields `none`; the composed instructions then
simply omit the corresponding section. -/
theorem c6_loaders_never_raise
    (validate : String → Except String UserProfile) (content err : String)
    (generated : String) :
    load_user_profile .missing validate = none ∧
    load_user_profile .errored validate = none ∧
    (validate content = .error err → load_user_profile (.got content) validate = none) ∧
    load_system_prompt .missing = none ∧
    load_system_prompt .errored = none ∧
    profileNote none = "" ∧
    composeSystemInstructions generated none = generated := by
  refine ⟨rfl, rfl, fun h => ?_, rfl, rfl, rfl, rfl⟩
  simp [load_user_profile, h]

/-- C6 witness: `c6_loaders_never_raise` with a validator that rejects its
input, exercising the invalid-content hypothesis. -/
theorem c6_loaders_never_raise_witness :
    load_user_profile (.got "x") (fun _ => Except.error "bad") = none :=
  (c6_loaders_never_raise (fun _ => Except.error "bad") "x" "bad" "g").2.2.1 rfl

/-- C8: system-instruction composition is deterministic — two calls on
pairwise-equal pre-resolved inputs produce byte-for-byte identical text (and
`compose` is a pure function of those inputs: it performs no file or network
access by construction). -/
theorem c8_compose_deterministic
    (a b a2 b2 : String) (p p2 : Option UserProfile) (o o2 : Option String)
    (ha : a = a2) (hb : b = b2) (hp : p = p2) (ho : o = o2) :
    compose a b p o = compose a2 b2 p2 o2 := by
  subst ha hb hp ho
  rfl

/-- C8 witness: `c8_compose_deterministic` at concrete inputs. -/
theorem c8_compose_deterministic_witness :
    compose "2025-01-02 10:00:00 +03+0300" "2025-01-02 07:00:00 UTC+0000" none none
      = compose "2025-01-02 10:00:00 +03+0300" "2025-01-02 07:00:00 UTC+0000" none none :=
  c8_compose_deterministic _ _ _ _ _ _ _ _ rfl rfl rfl rfl

/-- Numeric value of a decimal digit character, `none` otherwise. -/
def digitVal (c : Char) : Option Nat :=
  if c.isDigit then some (c.toNat - 48) else none

/-- Parse exactly four digits (the `%Y` field of the strptime format). -/
def parse4 : List Char → Option (Nat × List Char)
  | a :: b :: c :: d :: rest =>
    match digitVal a, digitVal b, digitVal c, digitVal d with
    | some x, some y, some z, some w => some (x * 1000 + y * 100 + z * 10 + w, rest)
    | _, _, _, _ => none
  | _ => none

/-- Parse a one- or two-digit numeric field in `[lo, hi]`, the way CPython's
strptime regex alternation does: prefer the two-digit reading, fall back to
the one-digit reading when the two-digit one (or anything after it, via the
continuation `k`) fails. -/
def parseNum2or1 {α : Type} (lo hi : Nat) (cs : List Char)
    (k : Nat → List Char → Option α) : Option α :=
  match cs with
  | [] => none
  | [a] =>
    match digitVal a with
    | some x => if lo ≤ x ∧ x ≤ hi then k x [] else none
    | none => none
  | a :: b :: rest =>
    match digitVal a with
    | none => none
    | some x =>
      match digitVal b with
      | none => if lo ≤ x ∧ x ≤ hi then k x (b :: rest) else none
      | some y =>
        let two := if lo ≤ x * 10 + y ∧ x * 10 + y ≤ hi then k (x * 10 + y) rest else none
        match two with
        | some r => some r
        | none => if lo ≤ x ∧ x ≤ hi then k x (b :: rest) else none

/-- Match the literal separator character `c`. -/
def expectChar (c : Char) : List Char → Option (List Char)
  | [] => none
  | d :: rest => if d = c then some rest else none

/-- Match one or more whitespace characters (a literal space in a strptime
format compiles to the regex `\s+`). -/
def skipWs1 : List Char → Option (List Char)
  | [] => none
  | c :: rest =>
    if c.isWhitespace then some (rest.dropWhile Char.isWhitespace) else none

/-- Gregorian leap-year rule used by `datetime`. -/
def leapYear (y : Nat) : Bool := (y % 4 == 0 && y % 100 != 0) || y % 400 == 0

/-- Number of days in month `m` of year `y`. -/
def daysInMonth (y m : Nat) : Nat :=
  if m = 2 then (if leapYear y then 29 else 28)
  else if m = 4 ∨ m = 6 ∨ m = 9 ∨ m = 11 then 30
  else 31

/-- `datetime.strptime(s, "%Y-%m-%d %H:%M")` as a total parser: four-digit
year, dash, 1-2 digit month in 1..12, dash, 1-2 digit day in 1..31, one or
more whitespace characters, 1-2 digit hour in 0..23, colon, 1-2 digit minute
in 0..59, end of input; then the `datetime` constructor's validity checks
(year at least MINYEAR = 1, day within the month).  `none` models the
`ValueError` the CLI catches. -/
def parseYmdHm (s : String) : Option (Nat × Nat × Nat × Nat × Nat) :=
  match parse4 s.data with
  | none => none
  | some (y, cs) =>
    match expectChar '-' cs with
    | none => none
    | some cs =>
      parseNum2or1 1 12 cs fun m cs =>
        match expectChar '-' cs with
        | none => none
        | some cs =>
          parseNum2or1 1 31 cs fun d cs =>
            match skipWs1 cs with
            | none => none
            | some cs =>
              parseNum2or1 0 23 cs fun h cs =>
                match expectChar ':' cs with
                | none => none
                | some cs =>
                  parseNum2or1 0 59 cs fun mi cs =>
                    if cs = [] ∧ 1 ≤ y ∧ d ≤ daysInMonth y m then
                      some (y, m, d, h, mi)
                    else none

/-- The event payload handed to `CalendarCreateEvent` (cli.py lines 199-210);
the three optional keys are added only when their CLI option is truthy. -/
structure Payload where
  summary : String
  start_datetime : String
  end_datetime : String
  timezone : String
  location : Option String
  description : Option String
  color_id : Option String
deriving DecidableEq, Repr

/-- Observable outcome of the quick-create command: a `typer.Exit` with its
code, or success, both carrying the list of create-event calls made to the
external calendar service (the success payload also carries the rendered
result text). -/
inductive QCResult where
  | exited : Nat → List Payload → QCResult
  | ok : List Payload → String → QCResult
deriving DecidableEq, Repr

/-- A truthy optional CLI string option (empty strings are dropped, matching
`if location: payload["location"] = location`). -/
def optTruthy : Option String → Option String
  | none => none
  | some s => if s = "" then none else some s

/-- Python `a or b` on strings: `b` when `a` is falsy (empty). -/
def pyOrS (a b : String) : String := if a = "" then b else a

/-- The timezone choice of cli.py line 193:
`timezone or (pf.timezone if pf else None) or os.getenv("CLI_DEFAULT_TIMEZONE", "Etc/UTC")`,
with Python truthiness (absent and empty both falsy). -/
def resolveTz (tzOpt pfTz envTz : Option String) : String :=
  pyOrS (tzOpt.getD "") (pyOrS (pfTz.getD "") (envTz.getD "Etc/UTC"))

/-- The normalisation of cli.py lines 195-197: strip the chosen timezone and
replace any case variant of the bare string `UTC` by `Etc/UTC`. -/
def normalizeTz (chosen : String) : String :=
  let tz := pyStrip chosen
  if pyUpper tz = "UTC" then "Etc/UTC" else tz

/-- The quick-create command (cli.py lines 169-214) over pre-resolved inputs:
validate both datetimes (exit code 1 on the first failure, before any payload
is built or any tool invoked), resolve and normalise the timezone, build the
payload, and invoke the external create-event tool exactly once, rendering
its result unmodified. -/
def quick_create (summary start end_ : String)
    (timezone location description color_id : Option String)
    (pf : Option UserProfile) (envDefaultTz : Option String)
    (invoke : Payload → String) : QCResult :=
  if parseYmdHm start = none then .exited 1 []
  else if parseYmdHm end_ = none then .exited 1 []
  else
    let chosen_tz := resolveTz timezone (pf.bind UserProfile.timezone) envDefaultTz
    let tz := normalizeTz chosen_tz
    let payload : Payload :=
      ⟨summary, start ++ ":00", end_ ++ ":00", tz,
       optTruthy location, optTruthy description, optTruthy color_id⟩
    .ok [payload] (invoke payload)

/-- C3: for every schema-conformant invocation of quick-create (both
datetimes valid), exactly one external create-event call is performed — the
call list is a singleton — and its result is returned and rendered
unmodified. -/
theorem c3_quick_create_single_call
    (summary start end_ : String)
    (timezone location description color_id : Option String)
    (pf : Option UserProfile) (envDefaultTz : Option String)
    (invoke : Payload → String)
    (h1 : (parseYmdHm start).isSome = true) (h2 : (parseYmdHm end_).isSome = true) :
    ∃ p, quick_create summary start end_ timezone location description color_id
        pf envDefaultTz invoke = .ok [p] (invoke p) := by
  have hA : parseYmdHm start ≠ none := by
    intro hn; rw [hn] at h1; simp at h1
  have hB : parseYmdHm end_ ≠ none := by
    intro hn; rw [hn] at h2; simp at h2
  unfold quick_create
  rw [if_neg hA, if_neg hB]
  exact ⟨_, rfl⟩

/-- C3 witness: `c3_quick_create_single_call` on a concrete valid event. -/
theorem c3_quick_create_single_call_witness :
    ∃ p, quick_create "Standup" "2025-01-02 10:00" "2025-01-02 10:30"
        none none none none none none (fun _ => "ok") = .ok [p] "ok" :=
  c3_quick_create_single_call "Standup" "2025-01-02 10:00" "2025-01-02 10:30"
    none none none none none none (fun _ => "ok") (by decide) (by decide)

/-- C9: when either datetime argument fails to parse under
`YYYY-MM-DD HH:MM`, quick-create exits with code 1 having performed zero
external calls — no payload reaches the calendar tool. -/
theorem c9_invalid_datetime_exits
    (summary start end_ : String)
    (timezone location description color_id : Option String)
    (pf : Option UserProfile) (envDefaultTz : Option String)
    (invoke : Payload → String)
    (h : parseYmdHm start = none ∨ parseYmdHm end_ = none) :
    quick_create summary start end_ timezone location description color_id
      pf envDefaultTz invoke = .exited 1 [] := by
  unfold quick_create
  rcases h with h | h
  · rw [if_pos h]
  · by_cases hs : parseYmdHm start = none
    · rw [if_pos hs]
    · rw [if_neg hs, if_pos h]

/-- C9 witness: a month 13 start datetime exits with code 1 and no calls. -/
theorem c9_invalid_datetime_exits_witness :
    quick_create "t" "2025-13-02 10:00" "2025-01-02 10:30"
      none none none none none none (fun _ => "ok") = .exited 1 [] :=
  c9_invalid_datetime_exits "t" "2025-13-02 10:00" "2025-01-02 10:30"
    none none none none none none (fun _ => "ok") (Or.inl (by decide))

/-- C10 counterexample: an explicitly supplied but empty `--timezone` option
is skipped (Python truthiness), so the profile timezone wins, contradicting
the claimed precedence which would put the explicit option value (here the
empty string, unchanged by UTC-normalisation) into the payload. -/
theorem c10_counterexample :
    quick_create "t" "2025-01-02 10:00" "2025-01-02 11:00" (some "")
        none none none
        (some ⟨some "Europe/Istanbul", none, none, none, none, none, none, none⟩)
        none (fun _ => "ok")
      = .ok [⟨"t", "2025-01-02 10:00:00", "2025-01-02 11:00:00", "Europe/Istanbul",
              none, none, none⟩] "ok" ∧
    normalizeTz "" = "" ∧ "Europe/Istanbul" ≠ "" := by
  refine ⟨by decide, rfl, by decide⟩

/-- C10 (amended): the payload timezone is `normalizeTz (resolveTz ...)`,
where the precedence takes the first truthy (present and non-empty) value
among the `--timezone` option, the profile timezone and the
`CLI_DEFAULT_TIMEZONE` variable, falling back to `Etc/UTC` when the variable
is unset; the chosen value is stripped and any case variant of the bare
string `UTC` is normalised to `Etc/UTC` before the payload is built. -/
theorem c10_timezone_precedence
    (summary start end_ : String)
    (tzOpt location description color_id : Option String)
    (pf : Option UserProfile) (envTz : Option String)
    (invoke : Payload → String) (s : String)
    (h1 : (parseYmdHm start).isSome = true) (h2 : (parseYmdHm end_).isSome = true) :
    (∃ p, quick_create summary start end_ tzOpt location description color_id
        pf envTz invoke = .ok [p] (invoke p) ∧
        p.timezone = normalizeTz (resolveTz tzOpt (pf.bind UserProfile.timezone) envTz)) ∧
    (∀ a b c : Option String, ∀ t, a = some t → t ≠ "" → resolveTz a b c = t) ∧
    (∀ a b c : Option String, ∀ u, a.getD "" = "" → b = some u → u ≠ "" →
        resolveTz a b c = u) ∧
    (∀ a b c : Option String, ∀ e, a.getD "" = "" → b.getD "" = "" → c = some e →
        resolveTz a b c = e) ∧
    (∀ a b : Option String, a.getD "" = "" → b.getD "" = "" →
        resolveTz a b none = "Etc/UTC") ∧
    (pyUpper (pyStrip s) = "UTC" → normalizeTz s = "Etc/UTC") ∧
    (pyUpper (pyStrip s) ≠ "UTC" → normalizeTz s = pyStrip s) := by
  have hA : parseYmdHm start ≠ none := by
    intro hn; rw [hn] at h1; simp at h1
  have hB : parseYmdHm end_ ≠ none := by
    intro hn; rw [hn] at h2; simp at h2
  refine ⟨?_, ?_, ?_, ?_, ?_, ?_, ?_⟩
  · unfold quick_create
    rw [if_neg hA, if_neg hB]
    exact ⟨_, rfl, rfl⟩
  · intro a b c t ha ht
    subst ha
    simp [resolveTz, pyOrS, ht]
  · intro a b c u ha hb hu
    subst hb
    simp [resolveTz, pyOrS, ha, hu]
  · intro a b c e ha hb hc
    subst hc
    simp [resolveTz, pyOrS, ha, hb]
  · intro a b ha hb
    simp [resolveTz, pyOrS, ha, hb]
  · intro hu
    simp [normalizeTz, hu]
  · intro hu
    simp [normalizeTz, hu]

/-- C10 witness: a ` utc ` option value is stripped and normalised to
`Etc/UTC` inside a concrete quick-create payload. -/
theorem c10_timezone_precedence_witness :
    ∃ p, quick_create "t" "2025-01-02 10:00" "2025-01-02 11:00" (some " utc ")
        none none none none none (fun _ => "ok") = .ok [p] "ok" ∧
      p.timezone = normalizeTz (resolveTz (some " utc ") none none) :=
  (c10_timezone_precedence "t" "2025-01-02 10:00" "2025-01-02 11:00" (some " utc ")
    none none none none none (fun _ => "ok") "x" (by decide) (by decide)).1
